import Mathlib

/-!
Verification of the `asyncdynamo` table layer (`gendynamo.py`).

The development shallowly embeds the pure, synchronous parts of the module:
value marshaling (`_pack_val` / `_unpack_val`), key extraction
(`_extract_keys`), the per-operation payload builders (`get`, `put`,
`update`, `increment`, `remove`, `mass_write`, `multi_write`), the
query/scan builder invocation (`QueryChain.__call__` / `ScanChain.__call__`)
and the error mapping (`_check_error` and the per-operation callbacks).

Python exceptions are modelled by an `Except PyErr` result; an operation
that returns `.ok d` has reached the point where the source hands the
request to the transport (`gen.Task` / `self._db....`), with `d` recording
the payload that would be dispatched, while `.error e` means the source
raised `e` locally, before any transport call.
-/

deriving instance DecidableEq for Except

namespace GenDynamo

/-! ## Python values

The native values the module manipulates: integers, strings, sets of
scalars, and anything else (`vother`, standing for a Python object that is
none of those shapes — a float, `None`, a dict, ...).  A Python `set` is
embedded as the list of its members in iteration order; `PyScalar.sother`
stands for a set member that is neither an `int` nor a string. -/

inductive PyScalar : Type where
  | pint (n : ℤ)
  | pstr (s : String)
  | sother (r : String)
  deriving DecidableEq, Repr

inductive PyVal : Type where
  | vint (n : ℤ)
  | vstr (s : String)
  | vset (elems : List PyScalar)
  | vother (r : String)
  deriving DecidableEq, Repr

/-- Python truthiness of a native value: `0`, `""` and the empty set are
falsy; every other supported value is truthy (an `vother` object is treated
as truthy, the default for Python objects). -/
def pyTruthy : PyVal → Bool
  | .vint n => n ≠ 0
  | .vstr s => s ≠ ""
  | .vset l => ¬ l.isEmpty
  | .vother _ => true

/-! ## Python exceptions -/

/-- The exception classes declared at the top of `gendynamo.py` (plus the
base `DynamoException`); `_check_error` raises one of these. -/
inductive ExcClass : Type where
  | dynamoExc
  | concurrentUpdateExc
  | putExc
  | removeExc
  | queryExc
  | scanExc
  deriving DecidableEq, Repr

/-- The exceptions the embedded code can raise. `dynamoError cls msg`
stands for `cls(msg)` raised by `_check_error`; the others are the builtin
Python exceptions the module raises locally. -/
inductive PyErr : Type where
  | valueError (msg : String)
  | typeError (msg : String)
  | keyError (msg : String)
  | runtimeError (msg : String)
  | dynamoError (cls : ExcClass) (msg : Option String)
  deriving DecidableEq, Repr

/-! ## Decimal strings

`_pack_val` stores an integer as `str(val)` and `_unpack_val` reads it back
with `int(val["N"])`.  `pyStrInt` and `pyIntOfStr` embed those two Python
builtins: signed decimal notation, the parse failing (`ValueError` in
Python, `none` here) on anything that is not an optional minus sign
followed by at least one digit. -/

/-- The character for a single decimal digit (digits are < 10). -/
def digChar (d : ℕ) : Char := Char.ofNat (48 + d)

/-- The numeric value of a decimal digit character. -/
def digVal (c : Char) : ℕ := c.toNat - 48

/-- Little-endian decimal digits, by structural recursion on a fuel bound
so that concrete values reduce inside the kernel. -/
def digitsRevAux : ℕ → ℕ → List ℕ
  | 0, _ => []
  | fuel + 1, n => if n = 0 then [] else (n % 10) :: digitsRevAux fuel (n / 10)

/-- Little-endian decimal digits of `n`. -/
def digitsRev (n : ℕ) : List ℕ := digitsRevAux n n

theorem digitsRevAux_eq_digits :
    ∀ fuel n, n ≤ fuel → digitsRevAux fuel n = Nat.digits 10 n := by
  intro fuel
  induction fuel with
  | zero =>
    intro n hn
    interval_cases n
    exact (Nat.digits_zero 10).symm
  | succ f ih =>
    intro n hn
    rw [digitsRevAux]
    by_cases h0 : n = 0
    · rw [if_pos h0, h0]
      exact (Nat.digits_zero 10).symm
    · rw [if_neg h0, Nat.digits_def' (b := 10) (by norm_num) (Nat.pos_of_ne_zero h0)]
      congr 1
      exact ih (n / 10) (by omega)

theorem digitsRev_eq_digits (n : ℕ) : digitsRev n = Nat.digits 10 n :=
  digitsRevAux_eq_digits n n le_rfl

/-- Decimal rendering of a natural number, as Python's `str` produces it. -/
def pyStrNat (n : ℕ) : List Char :=
  if n = 0 then ['0'] else ((digitsRev n).reverse.map digChar)

/-- Parse an unsigned decimal digit string; `none` unless the string is
nonempty and all digits. -/
def parseNat (cs : List Char) : Option ℕ :=
  if cs ≠ [] ∧ cs.all Char.isDigit then
    some (Nat.ofDigits 10 ((cs.map digVal).reverse))
  else none

/-- Python `str` on an integer. -/
def pyStrInt (n : ℤ) : String :=
  if n < 0 then ⟨'-' :: pyStrNat n.natAbs⟩ else ⟨pyStrNat n.natAbs⟩

/-- Python `int` on a string, as far as the module exercises it: an
optional leading minus sign followed by decimal digits. -/
def pyIntOfStr (s : String) : Option ℤ :=
  match s.data with
  | [] => none
  | c :: rest =>
    if c = '-' then Option.map (fun (m : ℕ) => -(m : ℤ)) (parseNat rest)
    else Option.map (fun (m : ℕ) => (m : ℤ)) (parseNat (c :: rest))

theorem digVal_digChar {d : ℕ} (hd : d < 10) : digVal (digChar d) = d := by
  interval_cases d <;> rfl

theorem isDigit_digChar {d : ℕ} (hd : d < 10) : (digChar d).isDigit = true := by
  interval_cases d <;> rfl

theorem pyStrNat_all_digit (n : ℕ) : (pyStrNat n).all Char.isDigit = true := by
  unfold pyStrNat
  split
  · rfl
  · rw [digitsRev_eq_digits, List.all_eq_true]
    intro c hc
    rw [List.mem_map] at hc
    obtain ⟨d, hd, rfl⟩ := hc
    exact isDigit_digChar (Nat.digits_lt_base (by norm_num) (List.mem_reverse.mp hd))

theorem pyStrNat_ne_nil (n : ℕ) : pyStrNat n ≠ [] := by
  unfold pyStrNat
  split
  · simp
  · rw [digitsRev_eq_digits]
    simp only [ne_eq, List.map_eq_nil_iff, List.reverse_eq_nil_iff]
    exact Nat.digits_ne_nil_iff_ne_zero.mpr (by assumption)

theorem map_self_of_mem {α : Type} {f : α → α} :
    ∀ l : List α, (∀ x ∈ l, f x = x) → l.map f = l
  | [], _ => rfl
  | a :: t, h => by
    rw [List.map_cons, h a (List.mem_cons_self a t),
      map_self_of_mem t (fun x hx => h x (List.mem_cons_of_mem a hx))]

theorem parseNat_pyStrNat (n : ℕ) : parseNat (pyStrNat n) = some n := by
  unfold parseNat
  rw [if_pos ⟨pyStrNat_ne_nil n, pyStrNat_all_digit n⟩]
  congr 1
  by_cases h : n = 0
  · subst h; rfl
  · unfold pyStrNat
    rw [if_neg h, digitsRev_eq_digits, List.map_map]
    have hmap : ((Nat.digits 10 n).reverse).map (digVal ∘ digChar) =
        (Nat.digits 10 n).reverse := by
      apply map_self_of_mem
      intro d hd
      simp only [Function.comp_apply]
      exact digVal_digChar (Nat.digits_lt_base (by norm_num) (List.mem_reverse.mp hd))
    rw [hmap, List.reverse_reverse, Nat.ofDigits_digits]

theorem head_pyStrNat_ne_minus (n : ℕ) :
    ∀ c cs, pyStrNat n = c :: cs → c ≠ '-' := by
  intro c cs hcs
  have hall := pyStrNat_all_digit n
  rw [hcs, List.all_cons, Bool.and_eq_true] at hall
  intro hcm
  rw [hcm] at hall
  exact absurd hall.1 (by decide)

/-- Round trip for the embedded Python builtins: `int(str(n)) == n`. -/
theorem pyIntOfStr_pyStrInt (n : ℤ) : pyIntOfStr (pyStrInt n) = some n := by
  by_cases hn : n < 0
  · rw [pyStrInt, if_pos hn]
    have h1 : pyIntOfStr ⟨'-' :: pyStrNat n.natAbs⟩ =
        if ('-' : Char) = '-' then
          Option.map (fun (m : ℕ) => -(m : ℤ)) (parseNat (pyStrNat n.natAbs))
        else Option.map (fun (m : ℕ) => (m : ℤ)) (parseNat ('-' :: pyStrNat n.natAbs)) := rfl
    rw [h1, if_pos rfl, parseNat_pyStrNat]
    have h2 : Option.map (fun (m : ℕ) => -(m : ℤ)) (some n.natAbs) =
        some (-(n.natAbs : ℤ)) := rfl
    rw [h2]
    congr 1
    omega
  · rw [pyStrInt, if_neg hn]
    rcases hh : pyStrNat n.natAbs with _ | ⟨c, cs⟩
    · exact absurd hh (pyStrNat_ne_nil _)
    · have hc : c ≠ '-' := head_pyStrNat_ne_minus n.natAbs c cs hh
      have h1 : pyIntOfStr ⟨c :: cs⟩ =
          if c = '-' then Option.map (fun (m : ℕ) => -(m : ℤ)) (parseNat cs)
          else Option.map (fun (m : ℕ) => (m : ℤ)) (parseNat (c :: cs)) := rfl
      rw [h1, if_neg hc, ← hh, parseNat_pyStrNat]
      have h2 : Option.map (fun (m : ℕ) => (m : ℤ)) (some n.natAbs) =
          some ((n.natAbs : ℤ)) := rfl
      rw [h2]
      congr 1
      omega

/-! ## Wire attribute values

`_pack_val` returns a single-key dict `{keytype: payload}`; `_unpack_val`
receives such a dict and branches on which key it contains.  `AttrVal`
represents those dicts by their tag: `N`/`S` carry a string payload,
`SS`/`SN` a list-of-strings payload, and `other` stands for a dict whose
single tag is any other string (such as the `"NS"` a fixed numeric-set
packing would emit), which `_unpack_val` does not recognize. -/

inductive AttrVal : Type where
  | N (s : String)
  | S (s : String)
  | SS (l : List String)
  | SN (l : List String)
  | other (tag : String)
  deriving DecidableEq, Repr

/-- `isinstance(item, int)` on a set member. -/
def isIntScalar : PyScalar → Bool
  | .pint _ => true
  | _ => false

/-- `isinstance(item, basestring)` (and, for the first member,
`isinstance(item, str)`) on a set member. -/
def isStrScalar : PyScalar → Bool
  | .pstr _ => true
  | _ => false

/-- The string carried by a set member; only applied on the all-strings
path, where the member is always a `pstr`. -/
def strOfScalar : PyScalar → String
  | .pstr s => s
  | .pint n => pyStrInt n
  | .sother r => r

/-- `GenDynamoTable._pack_val`.  An integer becomes `{"N": str(val)}`, a
string `{"S": val}`.  For a set: empty raises `ValueError`; the first
member picks the item type (raising `ValueError` if it is neither an int
nor a string); a member of another type than the first raises `ValueError`;
an all-strings set becomes `{"SS": [members]}`.  On the all-ints path the
source then runs `val = map(set, val)`, and `set(item)` on an int raises
`TypeError: 'int' object is not iterable` — so an int set never packs. -/
def pack_val : PyVal → Except PyErr AttrVal
  | .vint n => .ok (.N (pyStrInt n))
  | .vstr s => .ok (.S s)
  | .vset [] => .error (.valueError "empty sets are not supported by DynamoDB")
  | .vset (first :: rest) =>
    match first with
    | .pint _ =>
      if (first :: rest).all isIntScalar then
        .error (.typeError "int object is not iterable")
      else .error (.valueError "set should contain values of same type")
    | .pstr _ =>
      if (first :: rest).all isStrScalar then
        .ok (.SS ((first :: rest).map strOfScalar))
      else .error (.valueError "set should contain values of same type")
    | .sother _ =>
      .error (.valueError "set should contain only int or basestring items")
  | .vother _ => .error (.valueError "can not pack")

/-- `GenDynamoTable._unpack_val`.  `{"N": s}` parses the decimal string
(`int(val["N"])`), `{"S": s}` is the string, `{"SS": l}` becomes the set of
the strings.  The `"SN"` branch then evaluates `val["SS"]` on a dict whose
only key is `"SN"`, raising `KeyError`; any other tag raises
`ValueError("can not unpack ...")`. -/
def unpack_val : AttrVal → Except PyErr PyVal
  | .N s =>
    match pyIntOfStr s with
    | some n => .ok (.vint n)
    | none => .error (.valueError "invalid literal for int")
  | .S s => .ok (.vstr s)
  | .SS l => .ok (.vset (l.map PyScalar.pstr))
  | .SN _ => .error (.keyError "SS")
  | .other _ => .error (.valueError "can not unpack")

/-- An attribute map, in iteration order: the model of the Python dicts the
operations take and produce. -/
abbrev Dict : Type := List (String × PyVal)

/-- A packed item, the dict of wire attribute values. -/
abbrev WireItem : Type := List (String × AttrVal)

/-- `GenDynamoTable._pack`: pack every attribute of an item. -/
def pack : List (String × PyVal) → Except PyErr (List (String × AttrVal))
  | [] => .ok []
  | (k, v) :: t => do
    let a ← pack_val v
    let r ← pack t
    .ok ((k, a) :: r)

/-- `GenDynamoTable._unpack`: unpack every attribute of a wire item. -/
def unpack : List (String × AttrVal) → Except PyErr (List (String × PyVal))
  | [] => .ok []
  | (k, a) :: t => do
    let v ← unpack_val a
    let r ← unpack t
    .ok ((k, v) :: r)

theorem strOfScalar_pstr : ∀ l : List String,
    (l.map PyScalar.pstr).map strOfScalar = l
  | [] => rfl
  | s :: t => by
    rw [List.map_cons, List.map_cons, strOfScalar_pstr t]
    rfl

theorem all_isStrScalar_pstr : ∀ l : List String,
    (l.map PyScalar.pstr).all isStrScalar = true
  | [] => rfl
  | s :: t => by
    rw [List.map_cons, List.all_cons, all_isStrScalar_pstr t]
    rfl

/-! ## Dict primitives

Python dict operations, on the association-list model (keys unique, in
iteration order). -/

/-- `d.get(k)` / `k in d`. -/
def dget (d : Dict) (k : String) : Option PyVal :=
  (d.find? (fun p => p.1 == k)).map Prod.snd

/-- Remove a key (the mutation `pop` performs on its dict). -/
def dremove (d : Dict) (k : String) : Dict :=
  d.filter (fun p => p.1 != k)

/-- `d.pop(k)` as value plus resulting dict; `none` when the key is absent
(where Python raises `KeyError`). -/
def dpop (d : Dict) (k : String) : Option (PyVal × Dict) :=
  (dget d k).map (fun v => (v, dremove d k))

/-! ## Table schema and key extraction -/

/-- The attribute types a schema may declare: `GenDynamoTable.__init__`
raises `TypeError` for anything but `int` and `str`, so a validated schema
carries exactly one of these. -/
inductive PyType : Type where
  | tint
  | tstr
  deriving DecidableEq, Repr

/-- The key declaration of `GenDynamoTable.__init__`: `hash_key` is the
`(type, name)` pair, `range_key` the optional second pair (both
`range_key_type` and `range_key_name` are `None` when absent). -/
structure TableSchema : Type where
  hash_key_type : PyType
  hash_key_name : String
  range_key : Option (PyType × String)
  deriving DecidableEq, Repr

/-- `isinstance(v, int)`. -/
def isIntVal : PyVal → Bool
  | .vint _ => true
  | _ => false

/-- `isinstance(v, basestring)`. -/
def isStrVal : PyVal → Bool
  | .vstr _ => true
  | _ => false

/-- The two type-check `if`s of `_extract_keys`: a key declared `int` must
be an `int`, a key declared `str` must be a `basestring`, else
`ValueError`. -/
def checkKeyType (t : PyType) (name : String) (v : PyVal) : Except PyErr Unit :=
  match t with
  | .tint =>
    if isIntVal v then .ok () else .error (.valueError (name ++ " should be int"))
  | .tstr =>
    if isStrVal v then .ok () else .error (.valueError (name ++ " should be string"))

/-- `GenDynamoTable._extract_keys`.  Works on `data.copy()`: the caller's
dict is a separate value here (see `extract_keys_ref` for the statement
against a mutable heap).  Pops the hash key (`KeyError` if absent,
`ValueError` on a type mismatch), then the range key when the schema
declares one, and returns whatever attributes remain. -/
def extract_keys (sch : TableSchema) (data : Dict) :
    Except PyErr (PyVal × Option PyVal × Dict) :=
  match dpop data sch.hash_key_name with
  | none => .error (.keyError sch.hash_key_name)
  | some (hash_key, d1) => do
    checkKeyType sch.hash_key_type sch.hash_key_name hash_key
    match sch.range_key with
    | none => .ok (hash_key, none, d1)
    | some (rt, rn) =>
      match dpop d1 rn with
      | none => .error (.keyError ("range key " ++ rn ++ " not provided"))
      | some (range_key, d2) => do
        checkKeyType rt rn range_key
        .ok (hash_key, some range_key, d2)

/-- The wire key `{"HashKeyElement": ..., "RangeKeyElement": ...}`. -/
structure KeyRec : Type where
  hashKeyElement : AttrVal
  rangeKeyElement : Option AttrVal
  deriving DecidableEq, Repr

/-- `GenDynamoTable._key`: pack the hash key, and the range key when one is
passed (`if range_key is not None`). -/
def key (hash_key : PyVal) (range_key : Option PyVal) : Except PyErr KeyRec := do
  let h ← pack_val hash_key
  match range_key with
  | none => .ok ⟨h, none⟩
  | some rv => do
    let r ← pack_val rv
    .ok ⟨h, some r⟩

/-! ## Error mapping -/

/-- The keys of a store response the module reads.  `{}` (all fields
absent) models both an empty response dict and the default `_check_error`
substitutes for a `None` response. -/
structure Response : Type where
  message : Option String := none
  messageCap : Option String := none
  typeTag : Option String := none
  consumedCapacityUnits : Option PyVal := none
  attributes : Option WireItem := none
  item : Option WireItem := none
  items : Option (List WireItem) := none

/-- Python string containment: does `pat` start `s`? -/
def leadMatch : List Char → List Char → Bool
  | [], _ => true
  | _ :: _, [] => false
  | a :: as, b :: bs => a == b && leadMatch as bs

/-- Python string containment: does `pat` occur anywhere in `s`? -/
def hasSub (pat : List Char) : List Char → Bool
  | [] => leadMatch pat []
  | c :: t => leadMatch pat (c :: t) || hasSub pat t

/-- `pat in hay` on Python strings. -/
def strContains (hay pat : String) : Bool := hasSub pat.data hay.data

/-- Python `a or b` on the two message fields: an absent or empty first
string falls through to the second. -/
def pyOrStr (a b : Option String) : Option String :=
  match a with
  | some s => if s = "" then b else some s
  | none => b

/-- `GenDynamoTable._check_error`.  Does nothing without an error.  With
one, it reads the message, and picks the class: the one the caller passed
when there is one; otherwise `DynamoException`, upgraded to
`ConcurrentUpdateException` when the response `__type` mentions
`#ConditionalCheckFailedException`.  Note the upgrade is inside the
`cls is None` branch: a caller-supplied class suppresses it. -/
def check_error (response : Option Response) (error : Bool) (cls : Option ExcClass) :
    Except PyErr Unit :=
  if error then
    let r := response.getD {}
    let msg := pyOrStr r.message r.messageCap
    let c : ExcClass :=
      match cls with
      | some c => c
      | none =>
        if strContains (r.typeTag.getD "") "#ConditionalCheckFailedException" then
          .concurrentUpdateExc
        else .dynamoExc
    .error (.dynamoError c msg)
  else .ok ()

/-! ## Operation payload builders and callbacks -/

/-- A `{"Exists": False}` or `{"Exists": True, "Value": v}` entry of an
`Expected` map. -/
inductive ExpectedEntry : Type where
  | notExist
  | mustEqual (v : AttrVal)
  deriving DecidableEq, Repr

/-- `GetMixin.get`: extract the keys, refuse any remaining attribute, and
build the wire key for dispatch. -/
def get (sch : TableSchema) (kwargs : Dict) : Except PyErr KeyRec := do
  let (hash_key, range_key, rest) ← extract_keys sch kwargs
  if rest ≠ [] then
    .error (.keyError "arguments are not supported for get method")
  else key hash_key range_key

/-- What `PutMixin.put` dispatches: the packed item and the `Expected`
condition map. -/
structure PutDispatch : Type where
  data : WireItem
  expected : List (String × ExpectedEntry)
  deriving DecidableEq, Repr

/-- `PutMixin.put`: validate the keys (result discarded), require the range
key attribute — or, without a range key, the hash key attribute — to not
exist, pack the whole argument dict, and dispatch. -/
def put (sch : TableSchema) (kwargs : Dict) : Except PyErr PutDispatch := do
  let _ ← extract_keys sch kwargs
  let expected : List (String × ExpectedEntry) :=
    match sch.range_key with
    | some (_, rn) => [(rn, .notExist)]
    | none => [(sch.hash_key_name, .notExist)]
  let data ← pack kwargs
  .ok ⟨data, expected⟩

/-- `PutMixin._put_callback`: map errors with `cls=PutException`, then
resolve to `response.get("ConsumedCapacityUnits")`. -/
def put_callback (response : Response) (error : Bool) : Except PyErr (Option PyVal) := do
  check_error (some response) error (some .putExc)
  .ok response.consumedCapacityUnits

/-- The `Expected` map `RemoveMixin.remove` builds: every attribute of the
argument dict must exist with the packed value. -/
def mustEqualAll : Dict → Except PyErr (List (String × ExpectedEntry))
  | [] => .ok []
  | (a, v) :: t => do
    let pv ← pack_val v
    let r ← mustEqualAll t
    .ok ((a, .mustEqual pv) :: r)

/-- What `RemoveMixin.remove` dispatches. -/
structure RemoveDispatch : Type where
  key : KeyRec
  expected : List (String × ExpectedEntry)
  deriving DecidableEq, Repr

/-- `RemoveMixin.remove`: extract the keys, refuse any remaining attribute
(`raise KeyError` — the message is the one copied from `get`), then build
the wire key and an `Expected` entry for every attribute of the original
argument dict. -/
def remove (sch : TableSchema) (kwargs : Dict) : Except PyErr RemoveDispatch := do
  let (hash_key, range_key, rest) ← extract_keys sch kwargs
  if rest ≠ [] then
    .error (.keyError "arguments are not supported for get method")
  else do
    let k ← key hash_key range_key
    let expected ← mustEqualAll kwargs
    .ok ⟨k, expected⟩

/-- `RemoveMixin._remove_callback`: map errors with `cls=RemoveException`,
then resolve to `response.get("ConsumedCapacityUnits")`. -/
def remove_callback (response : Response) (error : Bool) : Except PyErr (Option PyVal) := do
  check_error (some response) error (some .removeExc)
  .ok response.consumedCapacityUnits

/-- One entry of the `AttributeUpdates` map: `{"Value": v, "Action": a}`. -/
structure UpdateEntry : Type where
  value : AttrVal
  action : String
  deriving DecidableEq, Repr

/-- The `AttributeUpdates` map `update` / `increment` build over the
non-key attributes, with the given action. -/
def updateDataOf (action : String) : Dict → Except PyErr (List (String × UpdateEntry))
  | [] => .ok []
  | (f, v) :: t => do
    let pv ← pack_val v
    let r ← updateDataOf action t
    .ok ((f, ⟨pv, action⟩) :: r)

/-- What `update` / `increment` dispatch. -/
structure UpdateDispatch : Type where
  key : KeyRec
  update_data : List (String × UpdateEntry)
  deriving DecidableEq, Repr

/-- `UpdateMixin.update`: extract keys, send every remaining attribute with
action `"PUT"`. -/
def update (sch : TableSchema) (kwargs : Dict) : Except PyErr UpdateDispatch := do
  let (hash_key, range_key, rest) ← extract_keys sch kwargs
  let k ← key hash_key range_key
  let ud ← updateDataOf "PUT" rest
  .ok ⟨k, ud⟩

/-- `IncrementMixin.increment`: extract keys, send every remaining
attribute with action `"ADD"`. -/
def increment (sch : TableSchema) (kwargs : Dict) : Except PyErr UpdateDispatch := do
  let (hash_key, range_key, rest) ← extract_keys sch kwargs
  let k ← key hash_key range_key
  let ud ← updateDataOf "ADD" rest
  .ok ⟨k, ud⟩

/-- `UpdateMixin._update_callback`: map errors (no caller class), then
resolve to the unpacked `response.get("Attributes")`; an absent
`Attributes` makes `_unpack` iterate over `None`, a `TypeError`. -/
def update_callback (response : Response) (error : Bool) : Except PyErr Dict := do
  check_error (some response) error none
  match response.attributes with
  | some a => unpack a
  | none => .error (.typeError "NoneType object has no attribute items")

/-- `IncrementMixin._increment_callback`: same shape as the update
callback. -/
def increment_callback (response : Response) (error : Bool) : Except PyErr Dict := do
  check_error (some response) error none
  match response.attributes with
  | some a => unpack a
  | none => .error (.typeError "NoneType object has no attribute items")

/-- Pack a list of items (`map(self._pack, items)`, eager in Python 2). -/
def packAll : List Dict → Except PyErr (List WireItem)
  | [] => .ok []
  | d :: t => do
    let w ← pack d
    let r ← packAll t
    .ok (w :: r)

/-- What `mass_write` dispatches: the packed `PutRequest` items of the one
table. -/
structure MassWriteDispatch : Type where
  requestItems : List WireItem
  deriving DecidableEq, Repr

/-- `MassWriteMixin.mass_write`: refuse more than 25 items before doing
anything else, then pack and dispatch. -/
def mass_write (items : List Dict) : Except PyErr MassWriteDispatch :=
  if items.length > 25 then
    .error (.runtimeError "mass_write accepts not more than 25 items")
  else do
    let packed ← packAll items
    .ok ⟨packed⟩

/-- The loop body of `GenDynamo.multi_write`: reject an unregistered table,
pack the table's items as `PutRequest`s, add their count, and raise once
the running total passes 25. -/
def multi_write_go (reg : List String) :
    List (String × List Dict) → List (String × List WireItem) → ℕ →
    Except PyErr (List (String × List WireItem))
  | [], data, _ => .ok data
  | (t, items) :: rest, data, count =>
    if reg.contains t then do
      let packed ← packAll items
      let count2 := count + items.length
      if count2 > 25 then
        .error (.runtimeError "multi_write accepts not more than 25 items")
      else multi_write_go reg rest (data ++ [(t, packed)]) count2
    else .error (.runtimeError "unknown table")

/-- `GenDynamo.multi_write` over the registered table names: the combined
`RequestItems` map it dispatches, or the local error. -/
def multi_write (reg : List String) (tables : List (String × List Dict)) :
    Except PyErr (List (String × List WireItem)) :=
  multi_write_go reg tables [] 0

/-! ## Query and scan builders -/

/-- The state of a `QueryChain`: `query(key)` starts from
`⟨some key, none, none, true, none⟩` and the fluent methods update it. -/
structure QueryChainState : Type where
  key : Option PyVal
  range_val : Option PyVal
  comp : Option String
  forward : Bool
  limit : Option ℤ
  deriving DecidableEq, Repr

/-- `QueryMixin.query`: a fresh chain for the hash key value. -/
def QueryChainState.init (k : PyVal) : QueryChainState :=
  ⟨some k, none, none, true, none⟩

/-- `QueryChain.gt`. -/
def QueryChainState.gt (st : QueryChainState) (v : PyVal) : QueryChainState :=
  { st with comp := some "GT", range_val := some v }

/-- `QueryChain.lt`. -/
def QueryChainState.lt (st : QueryChainState) (v : PyVal) : QueryChainState :=
  { st with comp := some "LT", range_val := some v }

/-- `QueryChain.asc`. -/
def QueryChainState.asc (st : QueryChainState) : QueryChainState :=
  { st with forward := true }

/-- `QueryChain.desc`. -/
def QueryChainState.desc (st : QueryChainState) : QueryChainState :=
  { st with forward := false }

/-- `QueryChain.limit`. -/
def QueryChainState.withLimit (st : QueryChainState) (n : ℤ) : QueryChainState :=
  { st with limit := some n }

/-- A range condition / scan filter:
`{"AttributeValueList": [...], "ComparisonOperator": ...}`. -/
structure WireCondition : Type where
  attributeValueList : List AttrVal
  comparisonOperator : Option String
  deriving DecidableEq, Repr

/-- What `QueryChain.__call__` hands to `self._db.query`. -/
structure QueryDispatch : Type where
  key : AttrVal
  range_key_conditions : WireCondition
  scan_index_forward : Bool
  limit : Option ℤ
  deriving DecidableEq, Repr

/-- `QueryChain.__call__`: raises `RuntimeError` when any of the key, the
bound, or the comparator is `None`; otherwise packs the key and the bound
and dispatches. -/
def QueryChainState.invoke (st : QueryChainState) : Except PyErr QueryDispatch :=
  match st.key, st.range_val, st.comp with
  | some kv, some rv, some cp => do
    let k ← pack_val kv
    let r ← pack_val rv
    .ok ⟨k, ⟨[r], some cp⟩, st.forward, st.limit⟩
  | _, _, _ => .error (.runtimeError "QueryChain was not configured properly")

/-- The state of a `ScanChain`: `scan()` starts from
`⟨none, none, true, none⟩`. -/
structure ScanChainState : Type where
  scan : Option PyVal
  comp : Option String
  forward : Bool
  limit : Option ℤ
  deriving DecidableEq, Repr

/-- `ScanMixin.scan`: a fresh chain. -/
def ScanChainState.init : ScanChainState := ⟨none, none, true, none⟩

/-- `ScanChain.gt`. -/
def ScanChainState.gt (st : ScanChainState) (v : PyVal) : ScanChainState :=
  { st with comp := some "GT", scan := some v }

/-- `ScanChain.lt`. -/
def ScanChainState.lt (st : ScanChainState) (v : PyVal) : ScanChainState :=
  { st with comp := some "LT", scan := some v }

/-- What `ScanChain.__call__` hands to `self._db.scan`. -/
structure ScanDispatch : Type where
  limit : Option ℤ
  scan_filter : Option WireCondition
  deriving DecidableEq, Repr

/-- `ScanChain.__call__`: `if self._scan:` — only a truthy bound builds a
scan filter; an unset (`None`) or falsy bound dispatches an unfiltered
scan.  Invocation never checks the builder's configuration. -/
def ScanChainState.invoke (st : ScanChainState) : Except PyErr ScanDispatch :=
  match st.scan with
  | some v =>
    if pyTruthy v then do
      let a ← pack_val v
      .ok ⟨st.limit, some ⟨[a], st.comp⟩⟩
    else .ok ⟨st.limit, none⟩
  | none => .ok ⟨st.limit, none⟩

/-! ## A mutable-dict view of `_extract_keys`

The claim that `_extract_keys` leaves the caller's dict untouched is about
Python mutation, so here the dicts live behind references into an explicit
heap: `data.copy()` allocates a fresh reference, and `pop` mutates the dict
at the reference it is applied to. -/

abbrev Heap : Type := List Dict

/-- Read the dict at a reference. -/
def hget (h : Heap) (r : ℕ) : Dict := h.getD r []

/-- Overwrite the dict at a reference. -/
def hset (h : Heap) (r : ℕ) (d : Dict) : Heap := h.set r d

/-- Allocate a fresh dict (`data.copy()`), returning the new reference. -/
def halloc (h : Heap) (d : Dict) : Heap × ℕ := (h ++ [d], h.length)

/-- `d.pop(k)` on the dict at reference `r`: removes the key in place. -/
def hpop (h : Heap) (r : ℕ) (k : String) : Except PyErr PyVal × Heap :=
  match dget (hget h r) k with
  | none => (.error (.keyError k), h)
  | some v => (.ok v, hset h r (dremove (hget h r) k))

/-- `GenDynamoTable._extract_keys` against the heap: the caller's dict is
at `r`; the body copies it to a fresh reference and every `pop` hits the
copy.  Returns the result (with the reference of the leftover dict) and
the heap as the call leaves it. -/
def extract_keys_ref (sch : TableSchema) (h : Heap) (r : ℕ) :
    Except PyErr (PyVal × Option PyVal × ℕ) × Heap :=
  let alloc := halloc h (hget h r)
  let rc := alloc.2
  match hpop alloc.1 rc sch.hash_key_name with
  | (.error e, h2) => (.error e, h2)
  | (.ok hash_key, h2) =>
    match checkKeyType sch.hash_key_type sch.hash_key_name hash_key with
    | .error e => (.error e, h2)
    | .ok _ =>
      match sch.range_key with
      | none => (.ok (hash_key, none, rc), h2)
      | some (rt, rn) =>
        match hpop h2 rc rn with
        | (.error _, h3) =>
          (.error (.keyError ("range key " ++ rn ++ " not provided")), h3)
        | (.ok range_key, h3) =>
          match checkKeyType rt rn range_key with
          | .error e => (.error e, h3)
          | .ok _ => (.ok (hash_key, some range_key, rc), h3)

/-! ## Shared lemmas -/

@[simp] theorem ok_bind {ε α β : Type} (a : α) (f : α → Except ε β) :
    (Except.ok a : Except ε α) >>= f = f a := rfl

@[simp] theorem error_bind {ε α β : Type} (e : ε) (f : α → Except ε β) :
    (Except.error e : Except ε α) >>= f = .error e := rfl

theorem all_isStrScalar_cons (s : String) (t : List String) :
    (PyScalar.pstr s :: t.map PyScalar.pstr).all isStrScalar = true :=
  all_isStrScalar_pstr (s :: t)

theorem strOfScalar_cons (s : String) (t : List String) :
    (PyScalar.pstr s :: t.map PyScalar.pstr).map strOfScalar = s :: t :=
  strOfScalar_pstr (s :: t)

theorem pack_val_pstr_set (s : String) (t : List String) :
    pack_val (.vset (PyScalar.pstr s :: t.map PyScalar.pstr)) = .ok (.SS (s :: t)) := by
  simp only [pack_val, all_isStrScalar_cons, strOfScalar_cons, if_true]

theorem isIntScalar_false_of_str {x : PyScalar} (h : isStrScalar x = true) :
    isIntScalar x = false := by
  cases x <;> simp_all [isIntScalar, isStrScalar]

theorem isStrScalar_false_of_int {x : PyScalar} (h : isIntScalar x = true) :
    isStrScalar x = false := by
  cases x <;> simp_all [isIntScalar, isStrScalar]

/-! ## C1 -/

/-- C1: the claim reads "for every supported native value v (an integer, a
string, a non-empty set of integers, or a non-empty set of strings),
`_unpack_val(_pack_val(v)) == v`".  The round trip holds for integers,
strings and non-empty string sets — but not for integer sets: on the
all-ints path `_pack_val` runs `val = map(set, val)`, and `set(item)` on an
int raises `TypeError`, so `_pack_val({1})` never returns (and had the line
read `map(str, val)` the emitted `"NS"` tag would still not round-trip,
since `_unpack_val` recognizes `"SN"`, not `"NS"`, and then reads
`val["SS"]`).  The last conjunct evaluates the failing input. -/
theorem pack_unpack_roundtrip_and_int_set_bug :
    (∀ n : ℤ, (pack_val (.vint n)).bind unpack_val = .ok (.vint n)) ∧
    (∀ s : String, (pack_val (.vstr s)).bind unpack_val = .ok (.vstr s)) ∧
    (∀ l : List String, l ≠ [] →
      (pack_val (.vset (l.map PyScalar.pstr))).bind unpack_val =
        .ok (.vset (l.map PyScalar.pstr))) ∧
    pack_val (.vset [.pint 1]) = .error (.typeError "int object is not iterable") := by
  refine ⟨?_, ?_, ?_, rfl⟩
  · intro n
    have h : (pack_val (.vint n)).bind unpack_val = unpack_val (.N (pyStrInt n)) := rfl
    rw [h]
    show (match pyIntOfStr (pyStrInt n) with
      | some m => Except.ok (PyVal.vint m)
      | none => Except.error (PyErr.valueError "invalid literal for int")) = .ok (.vint n)
    rw [pyIntOfStr_pyStrInt]
  · intro s
    rfl
  · intro l hl
    rcases l with _ | ⟨s, t⟩
    · exact absurd rfl hl
    · have h : (s :: t).map PyScalar.pstr = PyScalar.pstr s :: t.map PyScalar.pstr := rfl
      rw [h, pack_val_pstr_set]
      rfl

/-- Witness for C1's round-trip conjuncts at concrete inputs. -/
theorem pack_unpack_roundtrip_witness :
    (["a", "b"] : List String) ≠ [] ∧
    (pack_val (.vset (["a", "b"].map PyScalar.pstr))).bind unpack_val =
      .ok (.vset (["a", "b"].map PyScalar.pstr)) ∧
    (pack_val (.vint (-12))).bind unpack_val = .ok (.vint (-12)) :=
  ⟨by decide,
   pack_unpack_roundtrip_and_int_set_bug.2.2.1 ["a", "b"] (by decide),
   pack_unpack_roundtrip_and_int_set_bug.1 (-12)⟩

/-! ## C7 -/

/-- C7: `_pack_val` fails with `ValueError` on the empty set, on every
mixed-type set (members all ints-or-strings, at least one of each: whichever
member comes first, the homogeneity loop over the rest raises), and on
every input that is not an int, a string, or a set. -/
theorem pack_val_invalid_inputs :
    pack_val (.vset []) = .error (.valueError "empty sets are not supported by DynamoDB") ∧
    (∀ l : List PyScalar,
      (∃ x ∈ l, isIntScalar x = true) →
      (∃ x ∈ l, isStrScalar x = true) →
      (∀ x ∈ l, isIntScalar x = true ∨ isStrScalar x = true) →
      pack_val (.vset l) = .error (.valueError "set should contain values of same type")) ∧
    (∀ r : String, pack_val (.vother r) = .error (.valueError "can not pack")) := by
  refine ⟨rfl, ?_, fun r => rfl⟩
  intro l hint hstr hmem
  rcases l with _ | ⟨first, rest⟩
  · obtain ⟨x, hx, _⟩ := hint
    exact absurd hx (List.not_mem_nil x)
  · rcases hf : first with n | s | r
    · have hall : ((PyScalar.pint n :: rest).all isIntScalar) = false := by
        obtain ⟨x, hx, hxs⟩ := hstr
        rw [hf] at hx
        apply List.all_eq_false.mpr
        exact ⟨x, hx, by rw [isIntScalar_false_of_str hxs]; decide⟩
      simp only [pack_val, hall]
      rfl
    · have hall : ((PyScalar.pstr s :: rest).all isStrScalar) = false := by
        obtain ⟨x, hx, hxs⟩ := hint
        rw [hf] at hx
        apply List.all_eq_false.mpr
        exact ⟨x, hx, by rw [isStrScalar_false_of_int hxs]; decide⟩
      simp only [pack_val, hall]
      rfl
    · have hmem1 := hmem first (List.mem_cons_self first rest)
      rw [hf] at hmem1
      rcases hmem1 with h | h <;> simp [isIntScalar, isStrScalar] at h

/-- Witness for C7's mixed-set conjunct at a concrete input. -/
theorem pack_val_invalid_inputs_witness :
    (∃ x ∈ [PyScalar.pint 1, PyScalar.pstr "a"], isIntScalar x = true) ∧
    (∃ x ∈ [PyScalar.pint 1, PyScalar.pstr "a"], isStrScalar x = true) ∧
    pack_val (.vset [.pint 1, .pstr "a"]) =
      .error (.valueError "set should contain values of same type") :=
  ⟨⟨.pint 1, by decide⟩, ⟨.pstr "a", by decide⟩,
   pack_val_invalid_inputs.2.1 [.pint 1, .pstr "a"]
     ⟨.pint 1, by decide⟩ ⟨.pstr "a", by decide⟩ (by decide)⟩

/-! ## Fixtures -/

/-- The schema of the spec's running example: hash key `"id"` of type
`int`, no range key. -/
def idIntSchema : TableSchema := ⟨.tint, "id", none⟩

/-- A store failure response reporting a conditional-check failure, as the
service sends it. -/
def conditionalCheckFailedResponse : Response :=
  { typeTag := some "com.amazonaws.dynamodb.v20111205#ConditionalCheckFailedException",
    message := some "The conditional request failed" }

/-! ## C6 -/

/-- C6: on the schema with hash key `"id"` of type int, `_extract_keys`
raises `KeyError` (missing key) when the map lacks `"id"`, raises
`ValueError` (type mismatch) when `"id"` is bound to a string, and `get`
raises `KeyError` (unsupported argument) before dispatch when any non-key
attribute remains after extraction. -/
theorem extract_keys_and_get_validation :
    (∀ m : Dict, dget m "id" = none →
      extract_keys idIntSchema m = .error (.keyError "id")) ∧
    (∀ m : Dict, ∀ s : String, dget m "id" = some (.vstr s) →
      extract_keys idIntSchema m = .error (.valueError "id should be int")) ∧
    (∀ m : Dict, ∀ hk rk rest, extract_keys idIntSchema m = .ok (hk, rk, rest) →
      rest ≠ [] →
      get idIntSchema m = .error (.keyError "arguments are not supported for get method")) := by
  refine ⟨?_, ?_, ?_⟩
  · intro m h
    simp [extract_keys, idIntSchema, dpop, h]
  · intro m s h
    simp [extract_keys, idIntSchema, dpop, h, checkKeyType, isIntVal, Except.bind]
  · intro m hk rk rest hex hrest
    simp [get, hex, hrest, Except.bind]

/-- Witness for C6 at concrete attribute maps. -/
theorem extract_keys_and_get_validation_witness :
    dget [("name", PyVal.vstr "x")] "id" = none ∧
    extract_keys idIntSchema [("name", .vstr "x")] = .error (.keyError "id") ∧
    dget [("id", PyVal.vstr "x")] "id" = some (.vstr "x") ∧
    extract_keys idIntSchema [("id", .vstr "x")] = .error (.valueError "id should be int") ∧
    extract_keys idIntSchema [("id", .vint 1), ("extra", .vint 2)] =
      .ok (.vint 1, none, [("extra", .vint 2)]) ∧
    get idIntSchema [("id", .vint 1), ("extra", .vint 2)] =
      .error (.keyError "arguments are not supported for get method") :=
  ⟨by decide,
   extract_keys_and_get_validation.1 [("name", .vstr "x")] (by decide),
   by decide,
   extract_keys_and_get_validation.2.1 [("id", .vstr "x")] "x" (by decide),
   by decide,
   extract_keys_and_get_validation.2.2 [("id", .vint 1), ("extra", .vint 2)]
     (.vint 1) none [("extra", .vint 2)] (by decide) (by decide)⟩

/-! ## C2 -/

/-- C2: `put` does dispatch a conditional write whose precondition is that
the identifying key attribute (the range key attribute when the schema has
one, else the hash key attribute) must not exist.  But when the store
reports the conditional-check failure, the operation does NOT fail with
`ConcurrentUpdateException`: `_put_callback` passes `cls=PutException` to
`_check_error`, and the `#ConditionalCheckFailedException` upgrade only
runs `if cls is None`, so `PutException` is raised (second conjunct, at the
failing input).  The third conjunct shows the same response is mapped to
`ConcurrentUpdateException` by the `cls=None` path — the mapping the claim
(and the exception's existence) describe, bypassed for `put`. -/
theorem put_condition_and_conflict_class :
    (∀ sch kwargs d, put sch kwargs = .ok d →
      d.expected = (match sch.range_key with
        | some (_, rn) => [(rn, ExpectedEntry.notExist)]
        | none => [(sch.hash_key_name, ExpectedEntry.notExist)])) ∧
    put_callback conditionalCheckFailedResponse true =
      .error (.dynamoError .putExc (some "The conditional request failed")) ∧
    check_error (some conditionalCheckFailedResponse) true none =
      .error (.dynamoError .concurrentUpdateExc (some "The conditional request failed")) := by
  refine ⟨?_, by decide, by decide⟩
  intro sch kwargs d h
  cases hex : extract_keys sch kwargs with
  | error e => simp [put, hex, Except.bind] at h
  | ok v =>
    cases hpk : pack kwargs with
    | error e => simp [put, hex, hpk, Except.bind] at h
    | ok data =>
      simp [put, hex, hpk, Except.bind] at h
      rw [← h]

/-- Witness for C2's universally quantified conjunct at a concrete put. -/
theorem put_condition_witness :
    put idIntSchema [("id", PyVal.vint 1)] =
      .ok ⟨[("id", .N "1")], [("id", .notExist)]⟩ ∧
    (⟨[("id", AttrVal.N "1")], [("id", ExpectedEntry.notExist)]⟩ : PutDispatch).expected =
      (match idIntSchema.range_key with
        | some (_, rn) => [(rn, ExpectedEntry.notExist)]
        | none => [(idIntSchema.hash_key_name, ExpectedEntry.notExist)]) :=
  ⟨by decide,
   put_condition_and_conflict_class.1 idIntSchema [("id", .vint 1)]
     ⟨[("id", .N "1")], [("id", .notExist)]⟩ (by decide)⟩

/-! ## C3 -/

/-- C3 counterexample: `remove` does NOT accept additional non-key
attributes — with the key plus one extra attribute it raises `KeyError`
before dispatch (`if rest: raise KeyError(...)`) — and a store-reported
condition failure surfaces as `RemoveException`, not
`ConcurrentUpdateException` (cls=RemoveException bypasses the upgrade). -/
theorem remove_extras_counterexample :
    remove idIntSchema [("id", .vint 1), ("name", .vstr "a")] =
      .error (.keyError "arguments are not supported for get method") ∧
    remove_callback conditionalCheckFailedResponse true =
      .error (.dynamoError .removeExc (some "The conditional request failed")) :=
  ⟨by decide, by decide⟩

/-- C3 amended: `remove` rejects any additional non-key attribute with a
local `KeyError`; when only key attributes are supplied, each supplied
(key) attribute of the original map becomes a must-exist equality
precondition; on success the operation resolves to the consumed-capacity
metadata, and a store-reported condition failure raises `RemoveException`
(shown in the counterexample), not `ConcurrentUpdateException`. -/
theorem remove_rejects_extras_and_preconditions :
    (∀ sch kwargs hk rk rest, extract_keys sch kwargs = .ok (hk, rk, rest) →
      rest ≠ [] →
      remove sch kwargs = .error (.keyError "arguments are not supported for get method")) ∧
    (∀ sch kwargs hk rk k exp, extract_keys sch kwargs = .ok (hk, rk, []) →
      remove sch kwargs = .ok ⟨k, exp⟩ →
      mustEqualAll kwargs = .ok exp) ∧
    (∀ resp : Response, remove_callback resp false = .ok resp.consumedCapacityUnits) := by
  refine ⟨?_, ?_, fun resp => rfl⟩
  · intro sch kwargs hk rk rest hex hrest
    simp [remove, hex, hrest, Except.bind]
  · intro sch kwargs hk rk k exp hex h
    cases hk2 : key hk rk with
    | error e => simp [remove, hex, hk2, Except.bind] at h
    | ok k2 =>
      cases hme : mustEqualAll kwargs with
      | error e => simp [remove, hex, hk2, hme, Except.bind] at h
      | ok exps =>
        simp [remove, hex, hk2, hme, Except.bind] at h
        exact congrArg Except.ok h.2

/-- Witness for C3's amended claim at concrete inputs. -/
theorem remove_amended_witness :
    extract_keys idIntSchema [("id", .vint 1), ("name", .vstr "a")] =
      .ok (.vint 1, none, [("name", .vstr "a")]) ∧
    remove idIntSchema [("id", .vint 1), ("name", .vstr "a")] =
      .error (.keyError "arguments are not supported for get method") ∧
    remove idIntSchema [("id", .vint 1)] =
      .ok ⟨⟨.N "1", none⟩, [("id", .mustEqual (.N "1"))]⟩ ∧
    mustEqualAll [("id", PyVal.vint 1)] = .ok [("id", .mustEqual (.N "1"))] :=
  ⟨by decide,
   remove_rejects_extras_and_preconditions.1 idIntSchema [("id", .vint 1), ("name", .vstr "a")]
     (.vint 1) none [("name", .vstr "a")] (by decide) (by decide),
   by decide,
   remove_rejects_extras_and_preconditions.2.1 idIntSchema [("id", .vint 1)]
     (.vint 1) none ⟨.N "1", none⟩ [("id", .mustEqual (.N "1"))] (by decide) (by decide)⟩

/-! ## C8 -/

theorem updateDataOf_forall2 (act : String) : ∀ rest ud,
    updateDataOf act rest = .ok ud →
    List.Forall₂ (fun (fv : String × PyVal) (e : String × UpdateEntry) =>
      e.1 = fv.1 ∧ e.2.action = act ∧ pack_val fv.2 = .ok e.2.value) rest ud
  | [], ud, h => by
    simp [updateDataOf] at h
    subst h
    exact List.Forall₂.nil
  | (f, v) :: t, ud, h => by
    cases hpv : pack_val v with
    | error e => simp [updateDataOf, hpv] at h
    | ok pv =>
      cases hrec : updateDataOf act t with
      | error e => simp [updateDataOf, hpv, hrec] at h
      | ok r =>
        simp only [updateDataOf, hpv, hrec, ok_bind, Except.ok.injEq] at h
        rw [← h]
        exact List.Forall₂.cons ⟨rfl, rfl, hpv⟩ (updateDataOf_forall2 act t r hrec)

/-- C8: `update` sends every remaining (non-key) attribute, in order, as a
`{"Value": packed, "Action": "PUT"}` entry, and `increment` likewise with
action `"ADD"`; and on a successful store response both callbacks resolve
to the unpacked `Attributes` map the store reports. -/
theorem update_increment_actions_and_results :
    (∀ sch kwargs hk rk rest d, extract_keys sch kwargs = .ok (hk, rk, rest) →
      update sch kwargs = .ok d →
      List.Forall₂ (fun (fv : String × PyVal) (e : String × UpdateEntry) =>
        e.1 = fv.1 ∧ e.2.action = "PUT" ∧ pack_val fv.2 = .ok e.2.value)
        rest d.update_data) ∧
    (∀ sch kwargs hk rk rest d, extract_keys sch kwargs = .ok (hk, rk, rest) →
      increment sch kwargs = .ok d →
      List.Forall₂ (fun (fv : String × PyVal) (e : String × UpdateEntry) =>
        e.1 = fv.1 ∧ e.2.action = "ADD" ∧ pack_val fv.2 = .ok e.2.value)
        rest d.update_data) ∧
    (∀ (resp : Response) a, resp.attributes = some a →
      update_callback resp false = unpack a) ∧
    (∀ (resp : Response) a, resp.attributes = some a →
      increment_callback resp false = unpack a) := by
  refine ⟨?_, ?_, ?_, ?_⟩
  · intro sch kwargs hk rk rest d hex h
    cases hk2 : key hk rk with
    | error e => simp [update, hex, hk2] at h
    | ok k2 =>
      cases hud : updateDataOf "PUT" rest with
      | error e => simp [update, hex, hk2, hud] at h
      | ok ud =>
        simp only [update, hex, hk2, hud, ok_bind, Except.ok.injEq] at h
        rw [← h]
        exact updateDataOf_forall2 "PUT" rest ud hud
  · intro sch kwargs hk rk rest d hex h
    cases hk2 : key hk rk with
    | error e => simp [increment, hex, hk2] at h
    | ok k2 =>
      cases hud : updateDataOf "ADD" rest with
      | error e => simp [increment, hex, hk2, hud] at h
      | ok ud =>
        simp only [increment, hex, hk2, hud, ok_bind, Except.ok.injEq] at h
        rw [← h]
        exact updateDataOf_forall2 "ADD" rest ud hud
  · intro resp a h
    simp [update_callback, check_error, h]
  · intro resp a h
    simp [increment_callback, check_error, h]

/-- Witness for C8 at a concrete update, increment, and response. -/
theorem update_increment_witness :
    extract_keys idIntSchema [("id", .vint 1), ("c", .vint 5)] =
      .ok (.vint 1, none, [("c", .vint 5)]) ∧
    update idIntSchema [("id", .vint 1), ("c", .vint 5)] =
      .ok ⟨⟨.N "1", none⟩, [("c", ⟨.N "5", "PUT"⟩)]⟩ ∧
    List.Forall₂ (fun (fv : String × PyVal) (e : String × UpdateEntry) =>
        e.1 = fv.1 ∧ e.2.action = "PUT" ∧ pack_val fv.2 = .ok e.2.value)
      [("c", .vint 5)] [("c", ⟨.N "5", "PUT"⟩)] ∧
    List.Forall₂ (fun (fv : String × PyVal) (e : String × UpdateEntry) =>
        e.1 = fv.1 ∧ e.2.action = "ADD" ∧ pack_val fv.2 = .ok e.2.value)
      [("c", .vint 5)] [("c", ⟨.N "5", "ADD"⟩)] ∧
    update_callback { attributes := some [("c", .N "8")] } false = unpack [("c", .N "8")] :=
  ⟨by decide, by decide,
   update_increment_actions_and_results.1 idIntSchema [("id", .vint 1), ("c", .vint 5)]
     (.vint 1) none [("c", .vint 5)] ⟨⟨.N "1", none⟩, [("c", ⟨.N "5", "PUT"⟩)]⟩
     (by decide) (by decide),
   update_increment_actions_and_results.2.1 idIntSchema [("id", .vint 1), ("c", .vint 5)]
     (.vint 1) none [("c", .vint 5)] ⟨⟨.N "1", none⟩, [("c", ⟨.N "5", "ADD"⟩)]⟩
     (by decide) (by decide),
   update_increment_actions_and_results.2.2.1 { attributes := some [("c", .N "8")] }
     [("c", .N "8")] rfl⟩

/-! ## C5 -/

/-- C5: invoking a `QueryChain` in any configuration where `gt`/`lt` was
never called (so the comparator, and with it the bound, is still `None`)
raises `RuntimeError` — the module's precondition error — before any
dispatch; invoking a `ScanChain` never fails its (nonexistent)
configuration check: whenever the filter bound, if one is set and truthy,
packs, the invocation reaches dispatch. -/
theorem query_requires_bounds_scan_always_valid :
    (∀ st : QueryChainState, st.comp = none ∨ st.range_val = none →
      st.invoke = .error (.runtimeError "QueryChain was not configured properly")) ∧
    (∀ st : ScanChainState,
      (∀ v, st.scan = some v → pyTruthy v = true → ∃ a, pack_val v = .ok a) →
      ∃ d, st.invoke = .ok d) := by
  constructor
  · intro st h
    rcases st with ⟨k, rv, cp, fw, lim⟩
    rcases h with h | h
    · simp only at h
      subst h
      cases k <;> cases rv <;> rfl
    · simp only at h
      subst h
      cases k <;> cases cp <;> rfl
  · intro st h
    rcases st with ⟨sc, cp, fw, lim⟩
    cases sc with
    | none => exact ⟨_, rfl⟩
    | some v =>
      by_cases ht : pyTruthy v = true
      · obtain ⟨a, ha⟩ := h v rfl ht
        refine ⟨⟨lim, some ⟨[a], cp⟩⟩, ?_⟩
        simp only [ScanChainState.invoke]
        rw [if_pos ht, ha]
        rfl
      · refine ⟨⟨lim, none⟩, ?_⟩
        simp only [ScanChainState.invoke]
        rw [if_neg ht]

/-- Witness for C5 at concrete builder states. -/
theorem query_scan_invoke_witness :
    (QueryChainState.init (.vint 5)).comp = none ∧
    (QueryChainState.init (.vint 5)).invoke =
      .error (.runtimeError "QueryChain was not configured properly") ∧
    (∃ d, (ScanChainState.init.gt (.vint 3)).invoke = .ok d) ∧
    (∃ d, ScanChainState.init.invoke = .ok d) :=
  ⟨rfl,
   query_requires_bounds_scan_always_valid.1 (QueryChainState.init (.vint 5)) (Or.inl rfl),
   query_requires_bounds_scan_always_valid.2 (ScanChainState.init.gt (.vint 3))
     (fun v hv ht => by cases hv; exact ⟨.N "3", rfl⟩),
   query_requires_bounds_scan_always_valid.2 ScanChainState.init
     (fun v hv ht => by cases hv)⟩

/-! ## C9 -/

/-- C9: a `ScanChain` whose bound is falsy — `scan().gt(0)`, `scan().lt(0)`,
or the same with `""` — dispatches an unfiltered scan: `if self._scan:` is
false, so no scan filter is sent, exactly as if `gt`/`lt` had never been
called (same dispatch as the chain with `_scan` and `_comp` still unset). -/
theorem scan_falsy_bound_unfiltered :
    ∀ (st : ScanChainState) (v : PyVal), st.scan = some v →
      (v = .vint 0 ∨ v = .vstr "") →
      st.invoke = .ok ⟨st.limit, none⟩ ∧
      st.invoke = ScanChainState.invoke ⟨none, none, st.forward, st.limit⟩ := by
  intro st v hs hv
  rcases st with ⟨sc, cp, fw, lim⟩
  simp only at hs
  subst hs
  rcases hv with rfl | rfl
  · exact ⟨rfl, rfl⟩
  · exact ⟨rfl, rfl⟩

/-- Witness for C9: `scan().gt(0)` and `scan().lt("")` both dispatch with
no filter. -/
theorem scan_falsy_bound_witness :
    (ScanChainState.init.gt (.vint 0)).scan = some (.vint 0) ∧
    (ScanChainState.init.gt (.vint 0)).invoke = .ok ⟨none, none⟩ ∧
    (ScanChainState.init.gt (.vint 0)).invoke =
      ScanChainState.invoke ⟨none, none, true, none⟩ ∧
    (ScanChainState.init.lt (.vstr "")).invoke = .ok ⟨none, none⟩ :=
  ⟨rfl,
   (scan_falsy_bound_unfiltered (ScanChainState.init.gt (.vint 0)) (.vint 0)
     rfl (Or.inl rfl)).1,
   (scan_falsy_bound_unfiltered (ScanChainState.init.gt (.vint 0)) (.vint 0)
     rfl (Or.inl rfl)).2,
   (scan_falsy_bound_unfiltered (ScanChainState.init.lt (.vstr "")) (.vstr "")
     rfl (Or.inr rfl)).1⟩

/-! ## C4 -/

theorem multi_write_go_ok (reg : List String) : ∀ (tables : List (String × List Dict))
    (data : List (String × List WireItem)) (count : ℕ),
    (∀ p ∈ tables, reg.contains p.1 = true) →
    (∀ p ∈ tables, ∃ w, packAll p.2 = .ok w) →
    count + (tables.map (fun p => p.2.length)).sum ≤ 25 →
    ∃ out, multi_write_go reg tables data count = .ok out
  | [], data, count, _, _, _ => ⟨data, rfl⟩
  | (t, items) :: rest, data, count, hreg, hpk, hsum => by
    have hr := hreg (t, items) (List.mem_cons_self _ _)
    obtain ⟨w, hw⟩ := hpk (t, items) (List.mem_cons_self _ _)
    simp only [List.map_cons, List.sum_cons] at hsum
    simp only [multi_write_go, if_pos hr, hw, ok_bind]
    rw [if_neg (by omega : ¬ count + items.length > 25)]
    exact multi_write_go_ok reg rest (data ++ [(t, w)]) (count + items.length)
      (fun p hp => hreg p (List.mem_cons_of_mem _ hp))
      (fun p hp => hpk p (List.mem_cons_of_mem _ hp))
      (by omega)

theorem multi_write_go_over (reg : List String) : ∀ (tables : List (String × List Dict))
    (data : List (String × List WireItem)) (count : ℕ),
    (∀ p ∈ tables, reg.contains p.1 = true) →
    (∀ p ∈ tables, ∃ w, packAll p.2 = .ok w) →
    count ≤ 25 →
    25 < count + (tables.map (fun p => p.2.length)).sum →
    multi_write_go reg tables data count =
      .error (.runtimeError "multi_write accepts not more than 25 items")
  | [], _, count, _, _, hc, hover => by
    simp only [List.map_nil, List.sum_nil, Nat.add_zero] at hover
    exact absurd hc (by omega)
  | (t, items) :: rest, data, count, hreg, hpk, hc, hover => by
    have hr := hreg (t, items) (List.mem_cons_self _ _)
    obtain ⟨w, hw⟩ := hpk (t, items) (List.mem_cons_self _ _)
    simp only [List.map_cons, List.sum_cons] at hover
    simp only [multi_write_go, if_pos hr, hw, ok_bind]
    by_cases hgt : count + items.length > 25
    · rw [if_pos hgt]
    · rw [if_neg hgt]
      exact multi_write_go_over reg rest (data ++ [(t, w)]) (count + items.length)
        (fun p hp => hreg p (List.mem_cons_of_mem _ hp))
        (fun p hp => hpk p (List.mem_cons_of_mem _ hp))
        (by omega) (by omega)

/-- C4: `mass_write` checks its 25-item ceiling before anything else — 25
items (that pack) reach dispatch, 26 or more fail `RuntimeError` with no
transport call — and `multi_write` enforces a combined ceiling of 25 put
operations summed across all named (registered) tables, reaching dispatch
at a total of at most 25 and failing `RuntimeError` locally beyond it. -/
theorem batch_write_limits :
    (∀ items : List Dict, items.length = 25 → (∃ w, packAll items = .ok w) →
      ∃ d, mass_write items = .ok d) ∧
    (∀ items : List Dict, 25 < items.length →
      mass_write items = .error (.runtimeError "mass_write accepts not more than 25 items")) ∧
    (∀ (reg : List String) (tables : List (String × List Dict)),
      (∀ p ∈ tables, reg.contains p.1 = true) →
      (∀ p ∈ tables, ∃ w, packAll p.2 = .ok w) →
      (tables.map (fun p => p.2.length)).sum ≤ 25 →
      ∃ out, multi_write reg tables = .ok out) ∧
    (∀ (reg : List String) (tables : List (String × List Dict)),
      (∀ p ∈ tables, reg.contains p.1 = true) →
      (∀ p ∈ tables, ∃ w, packAll p.2 = .ok w) →
      25 < (tables.map (fun p => p.2.length)).sum →
      multi_write reg tables =
        .error (.runtimeError "multi_write accepts not more than 25 items")) := by
  refine ⟨?_, ?_, ?_, ?_⟩
  · intro items hlen ⟨w, hw⟩
    refine ⟨⟨w⟩, ?_⟩
    unfold mass_write
    rw [if_neg (by omega : ¬ items.length > 25), hw]
    rfl
  · intro items hlen
    unfold mass_write
    rw [if_pos (by omega : items.length > 25)]
  · intro reg tables hreg hpk hsum
    exact multi_write_go_ok reg tables [] 0 hreg hpk (by omega)
  · intro reg tables hreg hpk hover
    exact multi_write_go_over reg tables [] 0 hreg hpk (by omega) (by omega)

/-- Witness for C4 at the spec's concrete sizes: 25 and 26 items for
`mass_write`; 12+13 and 12+14 items across two tables for `multi_write`. -/
theorem batch_write_limits_witness :
    (List.replicate 25 ([("id", PyVal.vint 1)] : Dict)).length = 25 ∧
    (∃ d, mass_write (List.replicate 25 [("id", PyVal.vint 1)]) = .ok d) ∧
    mass_write (List.replicate 26 [("id", PyVal.vint 1)]) =
      .error (.runtimeError "mass_write accepts not more than 25 items") ∧
    (∃ out, multi_write ["a", "b"]
      [("a", List.replicate 12 [("id", PyVal.vint 1)]),
       ("b", List.replicate 13 [("id", PyVal.vint 1)])] = .ok out) ∧
    multi_write ["a", "b"]
      [("a", List.replicate 12 [("id", PyVal.vint 1)]),
       ("b", List.replicate 14 [("id", PyVal.vint 1)])] =
      .error (.runtimeError "multi_write accepts not more than 25 items") :=
  ⟨by decide,
   batch_write_limits.1 (List.replicate 25 [("id", PyVal.vint 1)]) (by decide)
     ⟨List.replicate 25 [("id", AttrVal.N "1")], by decide⟩,
   batch_write_limits.2.1 (List.replicate 26 [("id", PyVal.vint 1)]) (by decide),
   batch_write_limits.2.2.1 ["a", "b"]
     [("a", List.replicate 12 [("id", PyVal.vint 1)]),
      ("b", List.replicate 13 [("id", PyVal.vint 1)])]
     (fun p hp => by
       rcases List.mem_cons.mp hp with rfl | hp2
       · rfl
       · rcases List.mem_cons.mp hp2 with rfl | hp3
         · rfl
         · exact absurd hp3 (List.not_mem_nil p))
     (fun p hp => by
       rcases List.mem_cons.mp hp with rfl | hp2
       · exact ⟨List.replicate 12 [("id", AttrVal.N "1")], by decide⟩
       · rcases List.mem_cons.mp hp2 with rfl | hp3
         · exact ⟨List.replicate 13 [("id", AttrVal.N "1")], by decide⟩
         · exact absurd hp3 (List.not_mem_nil p))
     (by decide),
   batch_write_limits.2.2.2 ["a", "b"]
     [("a", List.replicate 12 [("id", PyVal.vint 1)]),
      ("b", List.replicate 14 [("id", PyVal.vint 1)])]
     (fun p hp => by
       rcases List.mem_cons.mp hp with rfl | hp2
       · rfl
       · rcases List.mem_cons.mp hp2 with rfl | hp3
         · rfl
         · exact absurd hp3 (List.not_mem_nil p))
     (fun p hp => by
       rcases List.mem_cons.mp hp with rfl | hp2
       · exact ⟨List.replicate 12 [("id", AttrVal.N "1")], by decide⟩
       · rcases List.mem_cons.mp hp2 with rfl | hp3
         · exact ⟨List.replicate 14 [("id", AttrVal.N "1")], by decide⟩
         · exact absurd hp3 (List.not_mem_nil p))
     (by decide)⟩

/-! ## C10 -/

theorem hget_append (h : Heap) (d : Dict) (r : ℕ) (hr : r < h.length) :
    hget (h ++ [d]) r = hget h r := by
  unfold hget
  exact List.getD_append h [d] [] r hr

theorem hget_hset_ne (h : Heap) (i r : ℕ) (d : Dict) (hne : r ≠ i) :
    hget (hset h i d) r = hget h r := by
  unfold hget hset List.getD
  rw [List.get?_eq_getElem?, List.get?_eq_getElem?, List.getElem?_set_ne (Ne.symm hne)]

theorem hget_hpop_other (h : Heap) (i r : ℕ) (k : String) (hne : r ≠ i) :
    hget (hpop h i k).2 r = hget h r := by
  unfold hpop
  cases hd : dget (hget h i) k with
  | none => rfl
  | some v => exact hget_hset_ne h i r _ hne

/-- C10: `_extract_keys` never mutates its argument.  Stated against the
heap model: the caller's dict lives at reference `r`, the body copies it to
a fresh reference (`data = data.copy()`) and every `pop` hits the copy, so
after the call — whichever path it took — the dict at `r` is unchanged, and
a caller such as `remove` can re-read the original map after extraction. -/
theorem extract_keys_no_caller_mutation :
    ∀ (sch : TableSchema) (h : Heap) (r : ℕ), r < h.length →
      hget (extract_keys_ref sch h r).2 r = hget h r := by
  intro sch h r hr
  have hne : r ≠ h.length := Nat.ne_of_lt hr
  have hbase : hget (h ++ [hget h r]) r = hget h r := hget_append h _ r hr
  unfold extract_keys_ref
  dsimp only [halloc]
  split
  · rename_i e h2 heq
    have h1 := hget_hpop_other (h ++ [hget h r]) h.length r sch.hash_key_name hne
    rw [heq] at h1
    exact h1.trans hbase
  · rename_i hash_key h2 heq
    have h1 := hget_hpop_other (h ++ [hget h r]) h.length r sch.hash_key_name hne
    rw [heq] at h1
    split
    · exact h1.trans hbase
    · split
      · exact h1.trans hbase
      · rename_i rt rn heq1
        split
        · rename_i h3 heq2
          have h2p := hget_hpop_other h2 h.length r rn hne
          rw [heq2] at h2p
          exact h2p.trans (h1.trans hbase)
        · rename_i range_key h3 heq2
          have h2p := hget_hpop_other h2 h.length r rn hne
          rw [heq2] at h2p
          split
          · exact h2p.trans (h1.trans hbase)
          · exact h2p.trans (h1.trans hbase)

/-- Witness for C10 at a concrete heap and schema. -/
theorem extract_keys_no_caller_mutation_witness :
    0 < ([[("id", PyVal.vint 1), ("a", PyVal.vstr "b")]] : Heap).length ∧
    hget (extract_keys_ref idIntSchema [[("id", PyVal.vint 1), ("a", PyVal.vstr "b")]] 0).2 0 =
      hget [[("id", PyVal.vint 1), ("a", PyVal.vstr "b")]] 0 :=
  ⟨by decide,
   extract_keys_no_caller_mutation idIntSchema
     [[("id", PyVal.vint 1), ("a", PyVal.vstr "b")]] 0 (by decide)⟩

end GenDynamo
